import Mathlib

/-!
Shallow embedding of the oneEdge agent's identity-rotation core
(`agents/oneedge-agent`): the SPIFFE manager, the MQTT publisher that
hot-swaps TLS material, and the agent `main` that orchestrates them.
Definitions follow the Go source; theorems settle the specification's
claims about them.
-/

namespace OneEdge

/-! ### Go string primitives

Go strings are modelled as `List Char`.  `replaceAll` embeds
`strings.ReplaceAll`: it replaces every non-overlapping occurrence of
`pat` left to right; with an empty `pat` it inserts `repl` at the start
and after each character, as the Go library does. -/

/-- The test `leadsWith pat s` is true when `pat` is an initial segment of `s`
(the prefix test `strings.ReplaceAll` performs at each position). -/
def leadsWith : List Char → List Char → Bool
  | [], _ => true
  | _ :: _, [] => false
  | p :: ps, c :: cs => p == c && leadsWith ps cs

/-- Behaviour of Go `strings.Replace` with an empty pattern: `repl` is
inserted at the beginning and after every character. -/
def interleave (repl : List Char) : List Char → List Char
  | [] => repl
  | c :: rest => repl ++ c :: interleave repl rest

/-- Embedding of Go `strings.ReplaceAll s pat repl`. -/
def replaceAll (s pat repl : List Char) : List Char :=
  if pat.isEmpty then interleave repl s
  else
    match s with
    | [] => []
    | c :: rest =>
      if leadsWith pat (c :: rest) then
        repl ++ replaceAll ((c :: rest).drop pat.length) pat repl
      else
        c :: replaceAll rest pat repl
termination_by s.length
decreasing_by
  · simp only [List.length_drop]
    have hp : pat ≠ [] := by
      intro h
      subst h
      simp [List.isEmpty] at *
    have : 1 ≤ pat.length := List.length_pos.mpr hp
    simp [List.length_cons]
    omega
  · simp [List.length_cons]

/-- The normalisation inside `sanitizeClientID` (publisher.go:210-212)
before the length cap: strip the `spiffe://` scheme, then turn path and
scheme separators into dashes. -/
def normalizeClientID (spiffeID : List Char) : List Char :=
  let clientID := replaceAll spiffeID ("spiffe://".data) []
  let clientID := replaceAll clientID ("/".data) ("-".data)
  replaceAll clientID (":".data) ("-".data)

/-- Embedding of `sanitizeClientID` (publisher.go:209-217). -/
def sanitizeClientID (spiffeID : List Char) : List Char :=
  let clientID := normalizeClientID spiffeID
  if clientID.length > 128 then clientID.take 128 else clientID

/-! ### Data model

SPIFFE identities, certificates, SVIDs and the `workloadapi.X509Context`
snapshot, as used by `internal/spiffe` and `internal/mqtt`.  A
certificate's DER bytes are abstracted to a `Nat` tag; its SAN URIs are
abstracted to their `spiffeid.FromURI` parse result (`some td` when the
URI parses to a SPIFFE ID in trust domain `td`, `none` when parsing
fails). -/

/-- A SPIFFE ID: trust domain plus workload path.  `idString` renders
`ID.String()` (`spiffe://<trust domain><path>`). -/
structure SpiffeID where
  trustDomain : String
  path : String
deriving DecidableEq, Repr

/-- Embedding of `spiffeid.ID.String()`. -/
def SpiffeID.idString (id : SpiffeID) : List Char :=
  "spiffe://".data ++ id.trustDomain.data ++ id.path.data

/-- An X.509 certificate, abstracted to what the agent inspects: a DER
tag, the SPIFFE trust domains its SAN URIs parse to (`none` for a URI
`spiffeid.FromURI` rejects), and its expiry. -/
structure Certificate where
  raw : Nat
  uriTrustDomains : List (Option String)
  notAfter : Int
deriving DecidableEq, Repr

/-- An X509-SVID.  The workload API library guarantees at least one
certificate, so the chain is `leaf :: intermediates`. -/
structure X509SVID where
  id : SpiffeID
  leaf : Certificate
  intermediates : List Certificate
  privateKey : Nat
deriving DecidableEq, Repr

/-- The chain `svid.Certificates`, leaf first. -/
def X509SVID.certificates (s : X509SVID) : List Certificate :=
  s.leaf :: s.intermediates

/-- A `workloadapi.X509Context`: SVIDs plus the trust bundles' root
authorities (flattened, as `tlsConfigFromUpdate` flattens them into one
cert pool). -/
structure X509Context where
  svids : List X509SVID
  bundleAuthorities : List Certificate
deriving DecidableEq, Repr

/-- Embedding of `X509Context.DefaultSVID()`: the first SVID, if any. -/
def X509Context.defaultSVID (u : X509Context) : Option X509SVID :=
  u.svids.head?

/-- Structured log lines (`slog`). -/
inductive LogLevel
  | info
  | warn
  | error
deriving DecidableEq, Repr

/-- A structured log event: level and message. -/
structure LogEvent where
  level : LogLevel
  msg : String
deriving DecidableEq, Repr

/-! ### TLS configuration and peer verification (publisher.go 155-207) -/

/-- The TLS configuration `tlsConfigFromUpdate` builds.  The Go closure
`VerifyPeerCertificate` captures only the SVID's trust domain; the
embedding records that captured domain in `verifyTrustDomain`, and
`verifyPeerCertificate` below is the closure's body. -/
structure TLSConfig where
  certChainDER : List Nat
  rootCAs : List Certificate
  minVersionTLS12 : Bool
  insecureSkipVerify : Bool
  verifyTrustDomain : String
deriving DecidableEq, Repr

/-- Body of the `VerifyPeerCertificate` closure (publisher.go:186-203):
scan the presented raw chain; fail on an unparseable certificate
(modelled as `none`); accept as soon as any certificate carries a URI
that parses to a SPIFFE ID in `trustDomain`; otherwise reject. -/
def verifyPeerCertificate (trustDomain : String) :
    List (Option Certificate) → Except String Unit
  | [] =>
    .error ("peer certificate missing SPIFFE ID in trust domain " ++ trustDomain)
  | none :: _ => .error "parse peer certificate"
  | some cert :: rest =>
    if cert.uriTrustDomains.any (fun u => u == some trustDomain) then
      .ok ()
    else
      verifyPeerCertificate trustDomain rest

/-- Embedding of `tlsConfigFromUpdate` (publisher.go:155-207): fails when
the update has no default SVID; otherwise builds the TLS configuration
(chain from the SVID, roots from the bundles, TLS ≥ 1.2, standard
verification disabled in favour of the trust-domain check) and the
sanitised client ID. -/
def tlsConfigFromUpdate (update : X509Context) :
    Except String (TLSConfig × List Char) :=
  match update.defaultSVID with
  | none => .error "update missing default SVID"
  | some svid =>
    let cfg : TLSConfig :=
      { certChainDER := svid.certificates.map (·.raw)
        rootCAs := update.bundleAuthorities
        minVersionTLS12 := true
        insecureSkipVerify := true
        verifyTrustDomain := svid.id.trustDomain }
    .ok (cfg, sanitizeClientID svid.id.idString)

/-! ### Publisher (publisher.go)

The `Publisher` struct's mutable fields are modelled as a state record;
each method becomes a state-transition function.  The mutex-guarded
regions of the Go code run while holding `p.mu`, so each lock-to-unlock
region is one atomic transition here.  Network effects (the MQTT
connect attempt, the publish token) are inputs chosen by the
environment. -/

/-- A live MQTT client handle, abstracted to a tag. -/
structure MqttClient where
  tag : Nat
deriving DecidableEq, Repr

/-- Publisher state: configuration fields set by `NewPublisher` plus the
mutex-guarded mutable fields (`tlsConfig`, `client`, `clientID`).
`client = none` is Go's `p.client == nil`. -/
structure Publisher where
  broker : String
  topic : String
  qos : Nat
  tlsConfig : Option TLSConfig
  client : Option MqttClient
  clientID : List Char
deriving DecidableEq, Repr

/-- Embedding of `NewPublisher` (publisher.go:33-40): QoS 1, no TLS material, no
client. -/
def newPublisher (broker topic : String) : Publisher :=
  { broker := broker
    topic := topic
    qos := 1
    tlsConfig := none
    client := none
    clientID := [] }

/-- Outcome of the single `client.Connect()` attempt inside
`connectLocked`: the token completes successfully (yielding the new
client handle), times out after 10s, or completes with an error. -/
inductive ConnectOutcome
  | success (c : MqttClient)
  | timeout
  | failed (e : String)
deriving DecidableEq, Repr

/-- Embedding of `connectLocked` (publisher.go:104-138), run with the
lock held: requires TLS material; on a successful connect the new client
becomes current, on timeout or error the state is unchanged (the client
field was already `none` on every call path). -/
def connectLocked (p : Publisher) (out : ConnectOutcome) :
    Publisher × Except String Unit :=
  match p.tlsConfig with
  | none => (p, .error "TLS config not ready")
  | some _ =>
    match out with
    | .success c => ({ p with client := some c }, .ok ())
    | .timeout => (p, .error "timeout connecting to mqtt broker")
    | .failed e => (p, .error ("connect mqtt broker: " ++ e))

/-- Embedding of `applyUpdate` (publisher.go:83-102), the body of
`ApplyCredential`: build TLS material from the update (returning early,
state untouched, on failure); then under the lock install the new
material, disconnect any existing client, and reconnect. -/
def applyUpdate (p : Publisher) (update : X509Context)
    (out : ConnectOutcome) : Publisher × Except String Unit :=
  match tlsConfigFromUpdate update with
  | .error e => (p, .error e)
  | .ok (cfg, clientID) =>
    let p1 : Publisher :=
      { p with tlsConfig := some cfg, clientID := clientID, client := none }
    connectLocked p1 out

/-- A message handed to the MQTT library by `client.Publish`. -/
structure Send where
  topic : String
  qos : Nat
  retained : Bool
  payload : List Char
deriving DecidableEq, Repr

/-- How the wait loop in `Publish` ends: the caller's context is
cancelled first, or the publish token completes with or without an
error. -/
inductive PublishOutcome
  | ctxCancelled (e : String)
  | ackError (e : String)
  | acked
deriving DecidableEq, Repr

/-- Embedding of `Publish` (publisher.go:61-80): with no client it
returns the "mqtt client not connected" error and hands nothing to the
transport; otherwise the payload is handed over at the configured topic
and QoS and the call waits for acknowledgment, cancellation, or token
error.  The second component lists the sends performed. -/
def publish (p : Publisher) (payload : List Char) (out : PublishOutcome) :
    Except String Unit × List Send :=
  match p.client with
  | none => (.error "mqtt client not connected", [])
  | some _ =>
    let send : Send :=
      { topic := p.topic, qos := p.qos, retained := false, payload := payload }
    match out with
    | .ctxCancelled e => (.error e, [send])
    | .ackError e => (.error e, [send])
    | .acked => (.ok (), [send])

/-! ### SPIFFE manager (internal/spiffe)

The manager caches the latest SVID and forwards snapshots to the agent
over `updates`, a buffered Go channel of capacity one.  The channel is
modelled as an `Option` slot: `some u` means one value is buffered. -/

/-- The non-blocking send `select { case m.updates <- update: default: }`
(spiffe manager, `OnX509ContextUpdate`): if the slot is free the value
is buffered; if a value is already buffered the NEW value is dropped. -/
def sendNonBlocking (slot : Option X509Context) (u : X509Context) :
    Option X509Context :=
  match slot with
  | none => some u
  | some v => some v

/-- A receive from the `updates` channel: yields the buffered value and
empties the slot. -/
def recvSlot (slot : Option X509Context) :
    Option (X509Context × Option X509Context) :=
  match slot with
  | none => none
  | some u => some (u, none)

/-- Manager state: the cached SVID and bundle (guarded by `m.mu`) and
the `updates` channel slot. -/
structure ManagerState where
  svid : Option X509SVID
  bundle : Option X509Context
  slot : Option X509Context
deriving DecidableEq, Repr

/-- Embedding of `OnX509ContextUpdate` (spiffe manager): a nil update is
ignored; an update without a default SVID is dropped with a warning and
neither the cache nor the channel slot changes; otherwise the cache is
refreshed and the snapshot is offered to the channel non-blockingly. -/
def onX509ContextUpdate (m : ManagerState) (update : Option X509Context) :
    ManagerState × List LogEvent :=
  match update with
  | none => (m, [])
  | some u =>
    match u.defaultSVID with
    | none =>
      (m, [{ level := .warn, msg := "received X509 update without default SVID" }])
    | some svid =>
      ({ svid := some svid, bundle := some u, slot := sendNonBlocking m.slot u },
       [{ level := .info, msg := "SVID refreshed" }])

/-- Deliver a sequence of updates to the manager with no intervening
consumption, as happens when the watch stream outpaces the agent. -/
def deliverAll (m : ManagerState) (us : List X509Context) : ManagerState :=
  us.foldl (fun st u => (onX509ContextUpdate st (some u)).1) m

/-- One step of the publisher's `Run` loop (publisher.go:43-58) when a
value is buffered in the `updates` channel: receive it, skip nil values,
otherwise apply it; an apply failure is logged and the loop continues. -/
def publisherRunStep (p : Publisher) (m : ManagerState)
    (out : ConnectOutcome) : Publisher × ManagerState × List LogEvent :=
  match recvSlot m.slot with
  | none => (p, m, [])
  | some (u, slot') =>
    let m' : ManagerState := { m with slot := slot' }
    match applyUpdate p u out with
    | (p', .ok ()) => (p', m', [])
    | (p', .error _) =>
      (p', m', [{ level := .error, msg := "failed to apply SVID update" }])

/-! ### Manual rotation (`Refresh` and `triggerRotate`) -/

/-- How a `Refresh` attempt ends: the identity authority answers with a
snapshot within the deadline, or the deadline expires first. -/
inductive RefreshOutcome
  | answered (u : X509Context)
  | timedOut
deriving DecidableEq, Repr

/-- Modelled from the spec: `Refresh(deadline)` of the IdentityManager
(§4.1) — the method the agent's `triggerRotate` invokes — is not among
the source files; only its caller is.  Per the spec it forces a
synchronous re-fetch, caches the result on success, and fails with
`RefreshTimeout` when the authority does not answer within the deadline,
leaving the cached credential untouched. -/
def refresh (m : ManagerState) (out : RefreshOutcome) :
    ManagerState × Except String Unit :=
  match out with
  | .timedOut => (m, .error "RefreshTimeout")
  | .answered u =>
    match u.defaultSVID with
    | none => (m, .error "no default SVID returned")
    | some svid => ({ m with svid := some svid, bundle := some u }, .ok ())

/-- The deadline `triggerRotate` imposes on a manual refresh
(`context.WithTimeout(ctx, 5*time.Second)`), in seconds. -/
def triggerRotateDeadlineSeconds : Nat := 5

/-- Embedding of `triggerRotate` (agent main): run `Refresh` under the
5-second deadline; a failure is logged as a warning and nothing else
happens. -/
def triggerRotate (m : ManagerState) (out : RefreshOutcome) :
    ManagerState × List LogEvent :=
  match refresh m out with
  | (m', .ok ()) => (m', [])
  | (m', .error _) =>
    (m', [{ level := .warn, msg := "manual refresh failed" }])

/-! ### Time formatting and the telemetry payload (agent main)

`telemetryPayload` marshals `{ts, message, component}` with
`json.Marshal`, which renders a Go map's keys in sorted order.  Go's
`time.Time` is modelled by its unix second, nanosecond part and whether
it is in UTC; `formatRFC3339Nano` embeds `Format(time.RFC3339Nano)` for
UTC times via the standard days-to-civil-date conversion. -/

/-- A Go `time.Time`, abstracted to the instant (unix seconds plus
nanoseconds, `0 ≤ nanos < 10^9`) and whether its location is UTC. -/
structure GoTime where
  unixSec : Int
  nanos : Nat
  isUTC : Bool
deriving DecidableEq, Repr

/-- Embedding of `t.UTC()`: same instant, UTC location. -/
def GoTime.utc (t : GoTime) : GoTime :=
  { t with isUTC := true }

/-- Left-pad with zeros to width `w`. -/
def pad (w : Nat) (s : List Char) : List Char :=
  List.replicate (w - s.length) '0' ++ s

/-- Decimal digits of a natural number. -/
def natChars (n : Nat) : List Char :=
  (toString n).data

/-- Civil date (year, month, day) from days since 1970-01-01, by the
standard era decomposition over 400-year cycles. -/
def civilFromDays (z0 : Int) : Int × Nat × Nat :=
  let z := z0 + 719468
  let era : Int := Int.fdiv z 146097
  let doe : Nat := (z - era * 146097).toNat
  let yoe : Nat := (doe - doe / 1460 + doe / 36524 - doe / 146096) / 365
  let y : Int := (yoe : Int) + era * 400
  let doy : Nat := doe - (365 * yoe + yoe / 4 - yoe / 100)
  let mp : Nat := (5 * doy + 2) / 153
  let d : Nat := doy - (153 * mp + 2) / 5 + 1
  let m : Nat := if mp < 10 then mp + 3 else mp - 9
  (if m ≤ 2 then y + 1 else y, m, d)

/-- Strip trailing zero digits (RFC3339Nano omits them). -/
def dropTrailingZeros (s : List Char) : List Char :=
  (s.reverse.dropWhile (· == '0')).reverse

/-- The fractional-second part of RFC3339Nano: empty when the
nanosecond part is zero, otherwise a dot followed by the nanosecond
digits with trailing zeros removed. -/
def fracRFC3339Nano (nanos : Nat) : List Char :=
  if nanos = 0 then [] else '.' :: dropTrailingZeros (pad 9 (natChars nanos))

/-- Render a year, zero-padded to four digits. -/
def yearChars (y : Int) : List Char :=
  if y < 0 then '-' :: pad 4 (natChars (-y).toNat) else pad 4 (natChars y.toNat)

/-- Embedding of `time.Time.Format(time.RFC3339Nano)`.  A UTC time gets
the `Z` suffix; the agent only formats times already converted by
`.UTC()`, so non-UTC offset rendering is fixed to `+00:00`. -/
def formatRFC3339Nano (t : GoTime) : List Char :=
  let days := Int.fdiv t.unixSec 86400
  let tod := (t.unixSec - days * 86400).toNat
  match civilFromDays days with
  | (y, m, d) =>
    yearChars y ++ "-".data ++ pad 2 (natChars m) ++ "-".data ++ pad 2 (natChars d)
      ++ "T".data ++ pad 2 (natChars (tod / 3600)) ++ ":".data
      ++ pad 2 (natChars (tod % 3600 / 60)) ++ ":".data ++ pad 2 (natChars (tod % 60))
      ++ fracRFC3339Nano t.nanos
      ++ (if t.isUTC then "Z".data else "+00:00".data)

/-- JSON values, restricted to what the telemetry payload carries. -/
inductive Json
  | str (s : List Char)
deriving DecidableEq, Repr

/-- Lexicographic byte order on strings, the order `json.Marshal` sorts
map keys by. -/
def charsLE : List Char → List Char → Bool
  | [], _ => true
  | _ :: _, [] => false
  | a :: as, b :: bs => if a = b then charsLE as bs else decide (a < b)

/-- The order `charsLE` lifted to strings. -/
def keyLE (a b : String) : Bool :=
  charsLE a.data b.data

/-- Insertion step for sorting object fields by key. -/
def insertByKey (kv : String × Json) :
    List (String × Json) → List (String × Json)
  | [] => [kv]
  | kv' :: rest =>
    if keyLE kv.1 kv'.1 then kv :: kv' :: rest else kv' :: insertByKey kv rest

/-- Sorting pass of `json.Marshal`, which renders a Go map's fields in sorted key order. -/
def jsonMarshalMap (fields : List (String × Json)) : List (String × Json) :=
  fields.foldr insertByKey []

/-- Embedding of `telemetryPayload` (agent main): the marshalled
`{ts, message, component}` object for the tick time `ts`. -/
def telemetryPayload (ts : GoTime) : List (String × Json) :=
  jsonMarshalMap
    [("ts", .str (formatRFC3339Nano ts.utc)),
     ("message", .str "hello from oneedge-agent".data),
     ("component", .str "oneedge-agent".data)]

/-- Render a JSON value (the payload's strings need no escaping). -/
def renderJson : Json → List Char
  | .str s => '"' :: (s ++ ['"'])

/-- Render the fields of a JSON object. -/
def renderObjFields : List (String × Json) → List Char
  | [] => []
  | [(k, v)] => '"' :: (k.data ++ '"' :: ':' :: renderJson v)
  | (k, v) :: rest =>
    '"' :: (k.data ++ '"' :: ':' :: renderJson v) ++ ',' :: renderObjFields rest

/-- Render a JSON object to its byte string. -/
def renderObj (fields : List (String × Json)) : List Char :=
  '{' :: renderObjFields fields ++ ['}']

/-! ### Agent `main` (cmd/oneedge-agent)

Startup is modelled as a function of the environment's choices: whether
the state directory and PID file can be prepared, whether the SPIFFE
manager initialises, which of the three `select` arms fires first, and
how the initial connect attempt ends.  The result records the exit (if
any), how many MQTT connect attempts were made, and the log lines. -/

/-- The startup deadline on the first SVID
(`time.After(10 * time.Second)`), in seconds. -/
def startupDeadlineSeconds : Nat := 10

/-- Which arm of the startup `select` fires first: the first snapshot
from the `updates` channel (possibly nil), the 10-second timer, or
context cancellation. -/
inductive FirstEvent
  | snapshot (u : Option X509Context)
  | startupTimeout
  | cancelled
deriving DecidableEq, Repr

/-- What startup produced: `exitCode = some n` means the process ended
with status `n` before reaching the steady-state loop (`os.Exit(1)` or
the `return` on cancellation); `none` means the loop was entered with
`publisher` current.  `connectAttempts` counts MQTT connect attempts. -/
structure StartupResult where
  exitCode : Option Nat
  connectAttempts : Nat
  publisher : Option Publisher
  logs : List LogEvent
deriving DecidableEq, Repr

/-- Embedding of `main` (agent main) up to entering the steady-state
loop: prepare the state directory (fatal on failure), record the PID
(warn on failure), initialise the SPIFFE manager (fatal on failure),
then wait for the first SVID snapshot under the 10-second deadline and
apply it (fatal on a nil snapshot or an apply failure). -/
def mainStartup (stateDirOk pidOk managerOk : Bool) (broker topic : String)
    (first : FirstEvent) (out : ConnectOutcome) : StartupResult :=
  if !stateDirOk then
    { exitCode := some 1, connectAttempts := 0, publisher := none
      logs := [{ level := .error, msg := "failed to prepare agent state dir" }] }
  else
    let pidLogs : List LogEvent :=
      if pidOk then [] else [{ level := .warn, msg := "unable to write PID file" }]
    if !managerOk then
      { exitCode := some 1, connectAttempts := 0, publisher := none
        logs := pidLogs ++ [{ level := .error, msg := "failed to initialise SPIFFE manager" }] }
    else
      let p := newPublisher broker topic
      match first with
      | .snapshot none =>
        { exitCode := some 1, connectAttempts := 0, publisher := none
          logs := pidLogs ++ [{ level := .error, msg := "received empty SVID snapshot" }] }
      | .snapshot (some u) =>
        let attempts : Nat :=
          match tlsConfigFromUpdate u with
          | .ok _ => 1
          | .error _ => 0
        match applyUpdate p u out with
        | (p', .ok ()) =>
          { exitCode := none, connectAttempts := attempts, publisher := some p'
            logs := pidLogs ++ [{ level := .info, msg := "agent running" }] }
        | (_, .error _) =>
          { exitCode := some 1, connectAttempts := attempts, publisher := none
            logs := pidLogs ++ [{ level := .error, msg := "failed to apply initial SVID" }] }
      | .startupTimeout =>
        { exitCode := some 1, connectAttempts := 0, publisher := none
          logs := pidLogs ++ [{ level := .error, msg := "timeout waiting for initial SVID" }] }
      | .cancelled =>
        { exitCode := some 0, connectAttempts := 0, publisher := none
          logs := pidLogs ++ [{ level := .error, msg := "context cancelled before SVID ready" }] }

/-- Which arm of the steady-state `select` fires on one iteration:
cancellation, a SIGHUP, or a ticker tick (with whether the rotate marker
file was touched, how a triggered refresh would end, and how the
telemetry publish ends). -/
inductive LoopEvent
  | ctxDone
  | sighup (rout : RefreshOutcome)
  | tick (rotateTouched : Bool) (rout : RefreshOutcome) (now : GoTime)
      (pout : PublishOutcome)
deriving Repr

/-- One iteration of the steady-state loop: exit (if any), updated
manager and publisher state, and logs. -/
structure LoopStepResult where
  exitCode : Option Nat
  manager : ManagerState
  publisher : Publisher
  logs : List LogEvent
deriving Repr

/-- Embedding of one iteration of `main`'s steady-state `for`/`select`
loop: cancellation returns cleanly; SIGHUP triggers a manual rotate; a
tick first checks the rotate marker file, then publishes one telemetry
payload, logging (never exiting) on failure. -/
def mainLoopStep (m : ManagerState) (p : Publisher) (ev : LoopEvent) :
    LoopStepResult :=
  match ev with
  | .ctxDone =>
    { exitCode := some 0, manager := m, publisher := p
      logs := [{ level := .info, msg := "shutdown requested" }] }
  | .sighup rout =>
    match triggerRotate m rout with
    | (m', rlogs) =>
      { exitCode := none, manager := m', publisher := p
        logs := { level := .info, msg := "received SIGHUP; triggering manual rotate" } :: rlogs }
  | .tick rotateTouched rout now pout =>
    let rotated : ManagerState × List LogEvent :=
      if rotateTouched then
        match triggerRotate m rout with
        | (m', rlogs) =>
          (m', { level := .info, msg := "rotate signal file touched; triggering refresh" } :: rlogs)
      else (m, [])
    let payload := renderObj (telemetryPayload now)
    match publish p payload pout with
    | (.ok (), _) =>
      { exitCode := none, manager := rotated.1, publisher := p
        logs := rotated.2 ++ [{ level := .info, msg := "telemetry sent" }] }
    | (.error _, _) =>
      { exitCode := none, manager := rotated.1, publisher := p
        logs := rotated.2 ++ [{ level := .warn, msg := "publish failed" }] }

/-! ### Sample data for concrete runs -/

/-- A sample SVID in the agent's trust domain, distinguished by `tag`. -/
def sampleSVID (tag : Nat) : X509SVID :=
  { id := { trustDomain := "oneedge.local", path := "/agent/" ++ toString tag }
    leaf := { raw := tag, uriTrustDomains := [some "oneedge.local"], notAfter := 1000 }
    intermediates := []
    privateKey := tag }

/-- A sample valid identity snapshot, distinguished by `tag`. -/
def sampleContext (tag : Nat) : X509Context :=
  { svids := [sampleSVID tag]
    bundleAuthorities := [{ raw := 500, uriTrustDomains := [], notAfter := 2000 }] }

/-- A snapshot carrying no SVID at all (so no default SVID). -/
def invalidContext : X509Context :=
  { svids := [], bundleAuthorities := [] }

/-! ### Helper lemmas on the string primitives -/

/-- Unfolding `replaceAll` on the empty string. -/
theorem replaceAll_nil (pat repl : List Char) (hp : ¬ pat.isEmpty = true) :
    replaceAll [] pat repl = [] := by
  rw [replaceAll.eq_def]
  simp [hp]

/-- Unfolding `replaceAll` on a nonempty string, nonempty pattern. -/
theorem replaceAll_cons (c : Char) (rest pat repl : List Char)
    (hp : ¬ pat.isEmpty = true) :
    replaceAll (c :: rest) pat repl =
      if leadsWith pat (c :: rest) then
        repl ++ replaceAll ((c :: rest).drop pat.length) pat repl
      else c :: replaceAll rest pat repl := by
  rw [replaceAll.eq_def]
  simp [hp]

/-- Every character of `interleave repl s` comes from `s` or `repl`. -/
theorem mem_interleave {c : Char} (repl s : List Char)
    (h : c ∈ interleave repl s) : c ∈ s ∨ c ∈ repl := by
  induction s with
  | nil => exact Or.inr h
  | cons a rest ih =>
    simp [interleave] at h
    rcases h with h | h | h
    · exact Or.inr h
    · exact Or.inl (by simp [h])
    · rcases ih h with h' | h'
      · exact Or.inl (by simp [h'])
      · exact Or.inr h'

/-- Every character of `replaceAll s pat repl` comes from `s` or from the
replacement. -/
theorem mem_replaceAll {c : Char} (s pat repl : List Char)
    (h : c ∈ replaceAll s pat repl) : c ∈ s ∨ c ∈ repl := by
  revert h
  induction s, pat, repl using replaceAll.induct with
  | case1 s pat repl hp =>
    intro h
    rw [replaceAll.eq_def, if_pos hp] at h
    exact mem_interleave _ _ h
  | case2 pat repl hp =>
    intro h
    rw [replaceAll_nil _ _ hp] at h
    simp at h
  | case3 pat repl hp c0 rest hl ih =>
    intro h
    rw [replaceAll_cons _ _ _ _ hp, if_pos hl] at h
    rcases List.mem_append.mp h with h | h
    · exact Or.inr h
    · rcases ih h with h' | h'
      · exact Or.inl (List.mem_of_mem_drop h')
      · exact Or.inr h'
  | case4 pat repl hp c0 rest hl ih =>
    intro h
    rw [replaceAll_cons _ _ _ _ hp, if_neg hl] at h
    rcases List.mem_cons.mp h with rfl | h
    · exact Or.inl (List.mem_cons_self _ _)
    · rcases ih h with h' | h'
      · exact Or.inl (List.mem_cons_of_mem _ h')
      · exact Or.inr h'

/-- Replacing the single character `p` by a replacement not containing
`p` removes every occurrence of `p`. -/
theorem not_mem_replaceAll_single {p : Char} (s repl : List Char)
    (hrepl : p ∉ repl) : p ∉ replaceAll s [p] repl := by
  induction s with
  | nil =>
    rw [replaceAll_nil _ _ (by simp)]
    simp
  | cons c rest ih =>
    intro h
    rw [replaceAll_cons _ _ _ _ (by simp)] at h
    by_cases hc : leadsWith [p] (c :: rest) = true
    · rw [if_pos hc] at h
      rcases List.mem_append.mp h with h | h
      · exact hrepl h
      · simp [List.drop] at h
        exact ih h
    · rw [if_neg hc] at h
      rcases List.mem_cons.mp h with rfl | h
      · simp [leadsWith] at hc
      · exact ih h

/-- A string led by `pat` contains every character of `pat`. -/
theorem leadsWith_mem {pat s : List Char} (h : leadsWith pat s = true) :
    ∀ c ∈ pat, c ∈ s := by
  induction pat generalizing s with
  | nil => simp
  | cons p ps ih =>
    cases s with
    | nil => simp [leadsWith] at h
    | cons a rest =>
      simp [leadsWith] at h
      intro c hc
      rcases List.mem_cons.mp hc with rfl | hc
      · simp [h.1]
      · exact List.mem_cons_of_mem _ (ih h.2 c hc)

/-- The normalised client ID contains neither path nor scheme
separators. -/
theorem normalizeClientID_no_sep (s : List Char) :
    '/' ∉ normalizeClientID s ∧ ':' ∉ normalizeClientID s := by
  have hslash : "/".data = ['/'] := rfl
  have hcolon : ":".data = [':'] := rfl
  have hdash : '/' ∉ "-".data := by decide
  have hdash' : ':' ∉ "-".data := by decide
  unfold normalizeClientID
  rw [hslash, hcolon]
  constructor
  · intro h
    rcases mem_replaceAll _ _ _ h with h | h
    · exact not_mem_replaceAll_single _ _ hdash h
    · exact hdash h
  · exact not_mem_replaceAll_single _ _ hdash'

/-- The function `sanitizeClientID` is the 128-character truncation of the
normalisation. -/
theorem sanitizeClientID_eq_take (s : List Char) :
    sanitizeClientID s = (normalizeClientID s).take 128 := by
  unfold sanitizeClientID
  by_cases h : (normalizeClientID s).length > 128
  · simp [h]
  · simp only [h, if_false]
    exact (List.take_of_length_le (by omega)).symm


/-! ### Claim C1 -/

/-- A full `updates` slot survives any further deliveries untouched. -/
theorem deliverAll_slot_full (st : ManagerState) (w : X509Context)
    (us : List X509Context) (h : st.slot = some w) :
    (deliverAll st us).slot = some w := by
  induction us generalizing st with
  | nil => exact h
  | cons x xs ih =>
    simp only [deliverAll, List.foldl_cons] at *
    apply ih
    cases hx : x.defaultSVID <;>
      simp [onX509ContextUpdate, hx, sendNonBlocking, h]

/-- C1 counterexample: deliver two credentials into the single-slot
channel faster than the consumer takes them; the slot still holds the
FIRST one, the two differ, and the consumer's next loop step applies the
first (earlier) credential — refuting "a new arrival overwrites" and
"earlier ones are never observed by `ApplyCredential`". -/
theorem claim_C1_counterexample :
    (deliverAll ⟨none, none, none⟩ [sampleContext 1, sampleContext 2]).slot
        = some (sampleContext 1) ∧
    sampleContext 1 ≠ sampleContext 2 ∧
    (publisherRunStep (newPublisher "localhost:8883" "sensors/dev/agent/telemetry")
        (deliverAll ⟨none, none, none⟩ [sampleContext 1, sampleContext 2])
        (.success ⟨0⟩)).1.clientID
      = sanitizeClientID (sampleSVID 1).id.idString :=
  ⟨rfl, by decide, rfl⟩

/-- C1 (amended): the channel holds at most one value and a new arrival
never queues, but when the slot is occupied the NEW arrival is dropped
(the slot is not overwritten): an occupied slot is unchanged by further
deliveries, and from an empty slot an uninterrupted burst of deliveries
leaves the FIRST valid credential for the consumer. -/
theorem claim_C1 (m : ManagerState) (v u : X509Context) (svid : X509SVID)
    (us : List X509Context) (hfull : m.slot = some v)
    (hvalid : u.defaultSVID = some svid) :
    ((onX509ContextUpdate m (some u)).1).slot = some v ∧
    (deliverAll { m with slot := none } (u :: us)).slot = some u := by
  constructor
  · simp [onX509ContextUpdate, hvalid, sendNonBlocking, hfull]
  · simp only [deliverAll, List.foldl_cons]
    apply deliverAll_slot_full
    simp [onX509ContextUpdate, hvalid, sendNonBlocking]

/-- C1 witness: the amended theorem at a concrete full slot and a
concrete valid update. -/
theorem claim_C1_witness :
    ((onX509ContextUpdate ⟨none, none, some (sampleContext 3)⟩
        (some (sampleContext 1))).1).slot = some (sampleContext 3) ∧
    (deliverAll ⟨none, none, none⟩ [sampleContext 1, sampleContext 2]).slot
        = some (sampleContext 1) :=
  claim_C1 ⟨none, none, some (sampleContext 3)⟩ (sampleContext 3)
    (sampleContext 1) (sampleSVID 1) [sampleContext 2] rfl rfl

/-! ### Claim C2 -/

/-- The peer-verification closure rejects any chain none of whose
certificates carries a SPIFFE URI in the local trust domain. -/
theorem verifyPeerCertificate_all_foreign (td : String)
    (chain : List Certificate)
    (h : ∀ c ∈ chain, ∀ u ∈ c.uriTrustDomains, u ≠ some td) :
    verifyPeerCertificate td (chain.map some) =
      .error ("peer certificate missing SPIFFE ID in trust domain " ++ td) := by
  induction chain with
  | nil => rfl
  | cons c rest ih =>
    have hany : c.uriTrustDomains.any (fun u => u == some td) = false := by
      rw [List.any_eq_false]
      intro u hu
      simpa using h c (List.mem_cons_self _ _) u hu
    simp only [List.map_cons, verifyPeerCertificate, hany]
    simp only [Bool.false_eq_true, if_false]
    exact ih (fun c' hc' => h c' (List.mem_cons_of_mem _ hc'))

/-- C2: on every handshake under a TLS configuration built from a
credential, a peer chain none of whose SPIFFE URIs resolves to the local
trust domain is rejected with the peer-verification error — regardless
of which roots signed it (the check never consults the roots) — and the
configuration disables standard name-based verification in favour of the
trust-domain check bound to the local credential's domain. -/
theorem claim_C2 (update : X509Context) (svid : X509SVID)
    (h : update.defaultSVID = some svid) (chain : List Certificate)
    (hforeign : ∀ c ∈ chain, ∀ u ∈ c.uriTrustDomains,
      u ≠ some svid.id.trustDomain) :
    ∃ cfg : TLSConfig,
      tlsConfigFromUpdate update = .ok (cfg, sanitizeClientID svid.id.idString) ∧
      cfg.insecureSkipVerify = true ∧
      cfg.verifyTrustDomain = svid.id.trustDomain ∧
      verifyPeerCertificate cfg.verifyTrustDomain (chain.map some) =
        .error ("peer certificate missing SPIFFE ID in trust domain "
          ++ svid.id.trustDomain) := by
  refine ⟨{ certChainDER := svid.certificates.map (·.raw)
            rootCAs := update.bundleAuthorities
            minVersionTLS12 := true
            insecureSkipVerify := true
            verifyTrustDomain := svid.id.trustDomain }, ?_, rfl, rfl, ?_⟩
  · simp [tlsConfigFromUpdate, h]
  · exact verifyPeerCertificate_all_foreign _ _ hforeign

/-- C2 witness: a concrete snapshot and a concrete peer chain from the
foreign trust domain `evil.example`. -/
theorem claim_C2_witness :
    ∃ cfg : TLSConfig,
      tlsConfigFromUpdate (sampleContext 1)
          = .ok (cfg, sanitizeClientID (sampleSVID 1).id.idString) ∧
      cfg.insecureSkipVerify = true ∧
      cfg.verifyTrustDomain = (sampleSVID 1).id.trustDomain ∧
      verifyPeerCertificate cfg.verifyTrustDomain
          (List.map some [(⟨77, [some "evil.example"], 3000⟩ : Certificate)]) =
        .error ("peer certificate missing SPIFFE ID in trust domain "
          ++ (sampleSVID 1).id.trustDomain) :=
  claim_C2 (sampleContext 1) (sampleSVID 1) rfl
    [⟨77, [some "evil.example"], 3000⟩] (by decide)
/-! ### Claim C3 -/

/-- C3 counterexample: starting from a state whose connection was
established by a successful `ApplyCredential`, a further call with a
snapshot from which no TLS material can be built returns early and
leaves the OLD connection current — after that call the current
connection is neither freshly built nor absent, refuting "after every
call, either the freshly built connection is the current one, or the
manager holds no connection". -/
theorem claim_C3_counterexample :
    (applyUpdate
        ((applyUpdate (newPublisher "localhost:8883" "sensors/dev/agent/telemetry")
            (sampleContext 1) (.success ⟨7⟩)).1)
        invalidContext (.success ⟨8⟩)).1.client = some ⟨7⟩ ∧
    (applyUpdate
        ((applyUpdate (newPublisher "localhost:8883" "sensors/dev/agent/telemetry")
            (sampleContext 1) (.success ⟨7⟩)).1)
        invalidContext (.success ⟨8⟩)).2 = .error "update missing default SVID" :=
  ⟨rfl, rfl⟩

/-- C3 (amended): whenever TLS material is successfully built from the
snapshot, `ApplyCredential` is atomic: the old connection is torn down
under the lock, and afterwards either the freshly built connection is
current (and the call succeeded) or no connection is held (and the call
failed) — never a half-built or stale one.  When building the TLS
material fails, the call returns early and the previous state, including
any live connection, is unchanged (stated for an arbitrary second
snapshot whose build fails, in any publisher state and for any connect
outcome). -/
theorem claim_C3 (p q : Publisher) (u u' : X509Context) (out out' : ConnectOutcome)
    (cfg : TLSConfig) (cid : List Char) (e : String)
    (h : tlsConfigFromUpdate u = .ok (cfg, cid))
    (h' : tlsConfigFromUpdate u' = .error e) :
    ((∃ c, out = .success c ∧ (applyUpdate p u out).1.client = some c ∧
        (applyUpdate p u out).2 = .ok ()) ∨
      ((applyUpdate p u out).1.client = none ∧
        ∃ e2, (applyUpdate p u out).2 = .error e2)) ∧
    applyUpdate q u' out' = (q, .error e) := by
  constructor
  · cases out with
    | success c =>
      exact Or.inl ⟨c, rfl, by simp [applyUpdate, h, connectLocked],
        by simp [applyUpdate, h, connectLocked]⟩
    | timeout =>
      refine Or.inr ⟨by simp [applyUpdate, h, connectLocked], ?_⟩
      exact ⟨"timeout connecting to mqtt broker",
        by simp [applyUpdate, h, connectLocked]⟩
    | failed e2 =>
      refine Or.inr ⟨by simp [applyUpdate, h, connectLocked], ?_⟩
      exact ⟨"connect mqtt broker: " ++ e2,
        by simp [applyUpdate, h, connectLocked]⟩
  · simp [applyUpdate, h']

/-- C3 witness: the amended theorem at a concrete snapshot with a
successful connect, and — for the failure frame — a concrete SVID-less
snapshot applied to a publisher holding a live connection, which the
failing call leaves exactly as it was. -/
theorem claim_C3_witness :
    ((∃ c, ConnectOutcome.success ⟨7⟩ = .success c ∧
        (applyUpdate (newPublisher "localhost:8883" "t") (sampleContext 1)
            (.success ⟨7⟩)).1.client = some c ∧
        (applyUpdate (newPublisher "localhost:8883" "t") (sampleContext 1)
            (.success ⟨7⟩)).2 = .ok ()) ∨
      ((applyUpdate (newPublisher "localhost:8883" "t") (sampleContext 1)
          (.success ⟨7⟩)).1.client = none ∧
        ∃ e2, (applyUpdate (newPublisher "localhost:8883" "t") (sampleContext 1)
            (.success ⟨7⟩)).2 = .error e2)) ∧
    applyUpdate
        ((applyUpdate (newPublisher "localhost:8883" "t") (sampleContext 1)
          (.success ⟨7⟩)).1) invalidContext (.success ⟨8⟩) =
      ((applyUpdate (newPublisher "localhost:8883" "t") (sampleContext 1)
          (.success ⟨7⟩)).1, .error "update missing default SVID") :=
  claim_C3 (newPublisher "localhost:8883" "t")
    ((applyUpdate (newPublisher "localhost:8883" "t") (sampleContext 1)
      (.success ⟨7⟩)).1)
    (sampleContext 1) invalidContext (.success ⟨7⟩) (.success ⟨8⟩)
    { certChainDER := ((sampleSVID 1).certificates).map (·.raw)
      rootCAs := (sampleContext 1).bundleAuthorities
      minVersionTLS12 := true
      insecureSkipVerify := true
      verifyTrustDomain := (sampleSVID 1).id.trustDomain }
    (sanitizeClientID (sampleSVID 1).id.idString)
    "update missing default SVID" rfl rfl

/-! ### Claim C4 -/

/-- C4: a freshly constructed publisher holds no connection; whenever no
connection is current, `Publish` fails with the not-connected error and
hands nothing to the transport; and an `ApplyCredential` call that does
not succeed never installs a connection — so every `Publish` before the
first successful `ApplyCredential` returns the not-connected error. -/
theorem claim_C4 (broker topic : String) (p : Publisher) (payload : List Char)
    (out : PublishOutcome) (u : X509Context) (cout : ConnectOutcome)
    (hp : p.client = none) :
    (newPublisher broker topic).client = none ∧
    publish p payload out = (.error "mqtt client not connected", []) ∧
    ((applyUpdate p u cout).2 ≠ .ok () → (applyUpdate p u cout).1.client = none) := by
  refine ⟨rfl, by simp [publish, hp], ?_⟩
  intro hfail
  cases htls : tlsConfigFromUpdate u with
  | error e => simpa [applyUpdate, htls] using hp
  | ok pr =>
    cases cout with
    | success c => exact absurd (by simp [applyUpdate, htls, connectLocked]) hfail
    | timeout => simp [applyUpdate, htls, connectLocked]
    | failed e => simp [applyUpdate, htls, connectLocked]

/-- C4 witness: the theorem at a fresh publisher, before any
credential. -/
theorem claim_C4_witness :
    (newPublisher "localhost:8883" "t").client = none ∧
    publish (newPublisher "localhost:8883" "t") "x".data .acked
        = (.error "mqtt client not connected", []) ∧
    ((applyUpdate (newPublisher "localhost:8883" "t") invalidContext .timeout).2
        ≠ .ok () →
      (applyUpdate (newPublisher "localhost:8883" "t") invalidContext
        .timeout).1.client = none) :=
  claim_C4 "localhost:8883" "t" (newPublisher "localhost:8883" "t") "x".data
    .acked invalidContext .timeout rfl

/-! ### Claim C5 -/

/-- C5 counterexample: a startup run in which a valid credential IS
available immediately still exits non-zero because preparing the agent
state directory failed — so absence of a credential at startup is not
the only fatal condition (the same inputs proceed to the steady-state
loop once the state directory is available). -/
theorem claim_C5_counterexample :
    (mainStartup false true true "localhost:8883" "t"
        (.snapshot (some (sampleContext 1))) (.success ⟨1⟩)).exitCode = some 1 ∧
    (mainStartup true true true "localhost:8883" "t"
        (.snapshot (some (sampleContext 1))) (.success ⟨1⟩)).exitCode = none :=
  ⟨rfl, rfl⟩

/-- C5 (amended): if no credential is obtained within the 10-second
startup deadline, the process logs a fatal error, exits non-zero, and
makes no transport connection attempt; no post-startup failure is fatal
(every steady-state loop iteration either continues or returns cleanly
on cancellation) — but credential absence is not the only fatal startup
condition: other initialisation failures also exit non-zero. -/
theorem claim_C5 (pidOk : Bool) (broker topic : String) (out : ConnectOutcome)
    (m : ManagerState) (p : Publisher) (ev : LoopEvent) :
    startupDeadlineSeconds = 10 ∧
    (mainStartup true pidOk true broker topic .startupTimeout out).exitCode
        = some 1 ∧
    (mainStartup true pidOk true broker topic .startupTimeout out).connectAttempts
        = 0 ∧
    ({ level := .error, msg := "timeout waiting for initial SVID" } : LogEvent)
        ∈ (mainStartup true pidOk true broker topic .startupTimeout out).logs ∧
    ((mainLoopStep m p ev).exitCode = none ∨
      (ev = .ctxDone ∧ (mainLoopStep m p ev).exitCode = some 0)) := by
  refine ⟨rfl, rfl, rfl, ?_, ?_⟩
  · cases pidOk <;> simp [mainStartup]
  · cases ev with
    | ctxDone => exact Or.inr ⟨rfl, rfl⟩
    | sighup rout =>
      left
      cases rout with
      | answered u =>
        cases hu : u.defaultSVID <;>
          simp [mainLoopStep, triggerRotate, refresh, hu]
      | timedOut => simp [mainLoopStep, triggerRotate, refresh]
    | tick touched rout now pout =>
      left
      cases hpub : publish p (renderObj (telemetryPayload now)) pout with
      | mk r sends =>
        cases r with
        | ok v =>
          cases v
          simp [mainLoopStep, hpub]
        | error e => simp [mainLoopStep, hpub]

/-! ### Claim C6 -/

/-- C6: a snapshot without a default SVID is dropped everywhere: the
manager's cached credential and its channel slot stay unchanged and a
warning is logged; building TLS material fails so the publisher's state
— including any live connection — is untouched and the error is
returned; and the publisher's run loop logs the failure and carries
on. -/
theorem claim_C6 (m : ManagerState) (u : X509Context) (p : Publisher)
    (out : ConnectOutcome) (h : u.defaultSVID = none) :
    onX509ContextUpdate m (some u) =
      (m, [{ level := .warn, msg := "received X509 update without default SVID" }]) ∧
    applyUpdate p u out = (p, .error "update missing default SVID") ∧
    publisherRunStep p { m with slot := some u } out =
      (p, { m with slot := none },
        [{ level := .error, msg := "failed to apply SVID update" }]) := by
  refine ⟨by simp [onX509ContextUpdate, h], ?_, ?_⟩
  · simp [applyUpdate, tlsConfigFromUpdate, h]
  · simp [publisherRunStep, recvSlot, applyUpdate, tlsConfigFromUpdate, h]

/-- C6 witness: the theorem at a concrete SVID-less snapshot delivered
to a connected publisher. -/
theorem claim_C6_witness :
    onX509ContextUpdate ⟨some (sampleSVID 1), some (sampleContext 1), none⟩
        (some invalidContext) =
      (⟨some (sampleSVID 1), some (sampleContext 1), none⟩,
        [{ level := .warn, msg := "received X509 update without default SVID" }]) ∧
    applyUpdate
        ((applyUpdate (newPublisher "localhost:8883" "t") (sampleContext 1)
          (.success ⟨7⟩)).1) invalidContext (.success ⟨8⟩) =
      ((applyUpdate (newPublisher "localhost:8883" "t") (sampleContext 1)
          (.success ⟨7⟩)).1, .error "update missing default SVID") ∧
    publisherRunStep
        ((applyUpdate (newPublisher "localhost:8883" "t") (sampleContext 1)
          (.success ⟨7⟩)).1)
        { (⟨some (sampleSVID 1), some (sampleContext 1), none⟩ : ManagerState)
            with slot := some invalidContext } (.success ⟨8⟩) =
      ((applyUpdate (newPublisher "localhost:8883" "t") (sampleContext 1)
          (.success ⟨7⟩)).1,
        { (⟨some (sampleSVID 1), some (sampleContext 1), none⟩ : ManagerState)
            with slot := none },
        [{ level := .error, msg := "failed to apply SVID update" }]) :=
  claim_C6 ⟨some (sampleSVID 1), some (sampleContext 1), none⟩ invalidContext
    ((applyUpdate (newPublisher "localhost:8883" "t") (sampleContext 1)
      (.success ⟨7⟩)).1) (.success ⟨8⟩) rfl

/-! ### Claim C7 -/

/-- C7: a manual rotation trigger runs `Refresh` under a 5-second
deadline; when the identity authority does not answer in time, `Refresh`
fails with `RefreshTimeout`, `triggerRotate` merely logs a warning
(never exits), and the manager's cached credential — hence the
credential in effect at the transport — is left exactly as it was. -/
theorem claim_C7 (m : ManagerState) :
    triggerRotateDeadlineSeconds = 5 ∧
    refresh m .timedOut = (m, .error "RefreshTimeout") ∧
    triggerRotate m .timedOut =
      (m, [{ level := .warn, msg := "manual refresh failed" }]) :=
  ⟨rfl, rfl, rfl⟩

/-! ### Claim C8 -/

/-- C8: the client identifier is a pure function of the credential's
principal identifier — `tlsConfigFromUpdate` derives it exactly as
`sanitizeClientID` of the SVID's SPIFFE ID string — and the result
contains no path separator `/`, no scheme separator `:`, and hence no
leading URI scheme. -/
theorem claim_C8 (idStr : List Char) (update : X509Context) :
    '/' ∉ sanitizeClientID idStr ∧
    ':' ∉ sanitizeClientID idStr ∧
    leadsWith ("spiffe://".data) (sanitizeClientID idStr) = false ∧
    (tlsConfigFromUpdate update).toOption.map Prod.snd
      = update.defaultSVID.map (fun svid => sanitizeClientID svid.id.idString) := by
  have hs := normalizeClientID_no_sep idStr
  have heq := sanitizeClientID_eq_take idStr
  have h1 : '/' ∉ sanitizeClientID idStr := by
    rw [heq]
    intro h
    exact hs.1 (List.mem_of_mem_take h)
  have h2 : ':' ∉ sanitizeClientID idStr := by
    rw [heq]
    intro h
    exact hs.2 (List.mem_of_mem_take h)
  refine ⟨h1, h2, ?_, ?_⟩
  · by_contra hlw
    rw [Bool.not_eq_false] at hlw
    exact h2 (leadsWith_mem hlw ':' (by decide))
  · cases hd : update.defaultSVID with
    | none => simp [tlsConfigFromUpdate, hd, Except.toOption]
    | some svid => simp [tlsConfigFromUpdate, hd, Except.toOption]

/-! ### Claim C9 -/

/-- C9: every telemetry publish carries the JSON object with exactly the
keys `component`, `message`, `ts` (in `json.Marshal`'s sorted key
order), all values strings, `ts` being the tick time converted to UTC
and formatted as RFC3339Nano; the publisher is constructed with QoS 1
and a connected publish hands exactly one message to the transport on
the configured topic at QoS 1. -/
theorem claim_C9 (now : GoTime) (broker topic : String) (c : MqttClient)
    (payload : List Char) (pout : PublishOutcome) :
    telemetryPayload now =
      [("component", .str "oneedge-agent".data),
       ("message", .str "hello from oneedge-agent".data),
       ("ts", .str (formatRFC3339Nano now.utc))] ∧
    (newPublisher broker topic).qos = 1 ∧
    (publish { newPublisher broker topic with client := some c } payload pout).2
      = [{ topic := topic, qos := 1, retained := false, payload := payload }] := by
  refine ⟨rfl, rfl, ?_⟩
  cases pout <;> rfl

/-! ### Claim C10 -/

/-- C10: the derived client identifier never exceeds 128 characters, and
it depends only on the first 128 characters of the normalised principal
identifier: two principal identifiers whose normalised forms agree on
that prefix yield the same client identifier. -/
theorem claim_C10 :
    (∀ s : List Char, (sanitizeClientID s).length ≤ 128) ∧
    ∀ s1 s2 : List Char,
      (normalizeClientID s1).take 128 = (normalizeClientID s2).take 128 →
      sanitizeClientID s1 = sanitizeClientID s2 := by
  constructor
  · intro s
    rw [sanitizeClientID_eq_take]
    simp [List.length_take]
  · intro s1 s2 h
    rw [sanitizeClientID_eq_take, sanitizeClientID_eq_take, h]

/-- C10 witness: the theorem at a concrete SPIFFE ID string. -/
theorem claim_C10_witness :
    (sanitizeClientID "spiffe://oneedge.local/agent/dev".data).length ≤ 128 ∧
    sanitizeClientID "spiffe://oneedge.local/agent/dev".data
      = sanitizeClientID "spiffe://oneedge.local/agent/dev".data :=
  ⟨claim_C10.1 _, claim_C10.2 _ _ rfl⟩

end OneEdge
